import Mathlib

/-!
# Message-type resolution in skycfg: static, gogo and dynamicpb registries

A shallow embedding of

* `internal/go/skycfg/proto_package.go` (namespace `Skycfg`): the default
  registry and the package attribute lookup,
* `gogocompat/gogocompat.go` (namespace `Gogocompat`): the registry that
  falls back to GoGo,
* `dynamicpb/dynamicpb.go` (namespace `Dynamicpb`): the registry built from a
  file descriptor set.

Go values that the code only passes around are kept as data:

* a Go `string` is a Lean `String`; the one prefix the code tests for,
  `gogo:`, is ASCII, so testing it by characters or by bytes is the same;
* a nil-able result (`reflect.Type`, an interface value, a map, an `error`)
  is an `Option`, `none` standing for `nil`;
* a Go multiple result `(T, error)` is a pair of options, because the code
  does return `nil, nil`;
* the two effects of the code, allocation (`reflect.New`, `t.New()`) and
  `log.Printf`, are threaded through an explicit `World`.

The process-wide registries of `github.com/golang/protobuf/proto` and
`github.com/gogo/protobuf/proto` are explicit `GlobalRegistry` arguments.
What the code calls in `google.golang.org/protobuf` (`protodesc.NewFiles`,
`(*protoregistry.Files).FindDescriptorByName`, `dynamicpb.NewMessageType`)
is kept by its documented behaviour over the declarations of a descriptor
set: messages with what they nest, enums and services.
-/

set_option autoImplicit false

namespace Skycfg

/-! ## Descriptor protos (`descriptorpb`) -/

/-- The fields of `descriptorpb.EnumDescriptorProto` used here. -/
structure EnumDescriptorProto where
  name : String
  value : List (String × Int)

/-- The fields of `descriptorpb.ServiceDescriptorProto` used here. -/
structure ServiceDescriptorProto where
  name : String

/-- The fields of `descriptorpb.DescriptorProto` used here: the simple name,
the nested message types and the nested enum types. -/
inductive DescriptorProto where
  | mk (name : String) (nestedType : List DescriptorProto)
      (enumType : List EnumDescriptorProto)

/-- Simple name of a message, `GetName()`. -/
def DescriptorProto.GetName : DescriptorProto → String
  | .mk name _ _ => name

/-- The fields of `descriptorpb.FileDescriptorProto` used here. -/
structure FileDescriptorProto where
  name : String
  package : String
  dependency : List String
  messageType : List DescriptorProto
  enumType : List EnumDescriptorProto
  service : List ServiceDescriptorProto

/-- Declared package of a file, `GetPackage()`. -/
def FileDescriptorProto.GetPackage (f : FileDescriptorProto) : String := f.package

/-- Message `descriptorpb.FileDescriptorSet`. -/
structure FileDescriptorSet where
  file : List FileDescriptorProto

/-! ## Go runtime values -/

/-- Effects of a call: `nextAddr` is the first address not yet handed out by
the allocator (every address below it is in use), `log` is what `log.Printf`
has written so far, oldest line first. -/
structure World where
  nextAddr : Nat
  log : List String

/-- Kinds of `reflect.Kind` a registered type can have. -/
inductive Kind where
  | Invalid
  | Struct
  | Ptr
  | Map
  | Slice
  | Interface
  deriving DecidableEq

/-- A `reflect.Type` as a registry hands it out. `name` is how `%v` prints it,
`kind` is `Kind()`. `descriptors` is `some (fd, md)` exactly when values of
the type implement `descriptor.Message`, and then `fd`, `md` are what
`descriptor.ForMessage` yields for such a value. -/
structure GoType where
  name : String
  kind : Kind
  descriptors : Option (FileDescriptorProto × DescriptorProto)

/-- A pointer value: the address it points to, its dynamic type, and the
fields of the pointee that differ from their zero value. -/
structure GoValue where
  addr : Nat
  typ : GoType
  setFields : List String

/-- Expression `reflect.New(goType.Elem()).Interface()` for a `goType` of
kind `Ptr`: a pointer of type `goType` to a newly allocated zero value of the
pointee. -/
def reflectNewElem (goType : GoType) (w : World) : GoValue × World :=
  (⟨w.nextAddr, goType, []⟩, { w with nextAddr := w.nextAddr + 1 })

/-- An interface value of type `descriptor.Message`: the value and the
descriptors its `Descriptor()` method stands for. -/
structure DescriptorMessage where
  val : GoValue
  fileDesc : FileDescriptorProto
  msgDesc : DescriptorProto

/-- The type assertion `goValue.(descriptor.Message)`; `none` is `ok == false`. -/
def assertDescriptorMessage (goValue : GoValue) : Option DescriptorMessage :=
  match goValue.typ.descriptors with
  | some (fd, md) => some ⟨goValue, fd, md⟩
  | none => none

/-- Function `descriptor.ForMessage`. -/
def ForMessage (m : DescriptorMessage) : FileDescriptorProto × DescriptorProto :=
  (m.fileDesc, m.msgDesc)

/-- The process-wide registry of a protobuf runtime: `proto.MessageType` and
`proto.EnumValueMap`, `none` for the `nil` they return on an unknown name. -/
structure GlobalRegistry where
  MessageType : String → Option GoType
  EnumValueMap : String → Option (List (String × Int))

/-! ## Descriptors of `protoreflect` and the index of `protoregistry` -/

/-- A `protoreflect.MessageDescriptor`: `ParentFile()`, `FullName()` and the
message it describes (what `protodesc.ToDescriptorProto` gives back). -/
structure MessageDescriptor where
  parentFile : FileDescriptorProto
  fullName : String
  proto : DescriptorProto

/-- A `protoreflect.Descriptor` of one of the declarations kept here. -/
inductive Descriptor where
  | message (d : MessageDescriptor)
  | enum (parentFile : FileDescriptorProto) (fullName : String) (proto : EnumDescriptorProto)
  | service (parentFile : FileDescriptorProto) (fullName : String)
      (proto : ServiceDescriptorProto)

/-- The type assertion `descriptor.(protoreflect.MessageDescriptor)` on a
possibly nil interface value; `none` is `ok == false`. -/
def assertMessageDescriptor : Option Descriptor → Option MessageDescriptor
  | some (.message d) => some d
  | _ => none

/-- A message of `dynamicpb`, wrapped as a `protoiface.MessageV1`. -/
structure DynamicMessage where
  addr : Nat
  desc : MessageDescriptor
  setFields : List String

/-! ## Errors -/

/-- The errors the three registries produce. -/
inductive Error where
  /-- `fmt.Errorf("Protobuf message type %q not found", name)` -/
  | messageTypeNotFound (name : String)
  /-- `fmt.Errorf("InternalError: %v is not a generated proto.Message", goType)` -/
  | internalError (goType : GoType)
  /-- `fmt.Errorf("not a message: %#v", descriptor)` -/
  | notAMessage (descriptor : Option Descriptor)
  /-- `protoregistry.NotFound` -/
  | NotFound
  /-- an error of `protodesc.NewFiles` -/
  | newFiles (reason : String)

/-! ## Resolved message types -/

/-- A value of the interface `proto.Message` as the registries return it. -/
inductive ProtoMessage where
  | generated (m : DescriptorMessage)
  | dynamic (m : DynamicMessage)

/-- Struct `defaultProtoMessageType`. -/
structure defaultProtoMessageType where
  fileDesc : FileDescriptorProto
  msgDesc : DescriptorProto
  emptyMsg : DescriptorMessage

end Skycfg

namespace Gogocompat
open Skycfg

/-- Struct `gogoProtoMessageType`. -/
structure gogoProtoMessageType where
  fileDesc : FileDescriptorProto
  msgDesc : DescriptorProto
  emptyMsg : DescriptorMessage

end Gogocompat

namespace Dynamicpb
open Skycfg

/-- Struct `dynamicProtoMessageType`. -/
structure dynamicProtoMessageType where
  fileDesc : FileDescriptorProto
  msgDesc : DescriptorProto
  emptyMsg : DynamicMessage

end Dynamicpb

namespace Skycfg

/-- Interface `ProtoMessageType`, by the three structs that implement it. -/
inductive ProtoMessageType where
  | default (d : defaultProtoMessageType)
  | gogo (d : Gogocompat.gogoProtoMessageType)
  | dynamic (d : Dynamicpb.dynamicProtoMessageType)

/-- Method `Descriptors()`: each implementation returns `d.fileDesc, d.msgDesc`. -/
def ProtoMessageType.Descriptors : ProtoMessageType → FileDescriptorProto × DescriptorProto
  | .default d => (d.fileDesc, d.msgDesc)
  | .gogo d => (d.fileDesc, d.msgDesc)
  | .dynamic d => (d.fileDesc, d.msgDesc)

/-- Method `Empty()`: each implementation returns `d.emptyMsg`. -/
def ProtoMessageType.Empty : ProtoMessageType → ProtoMessage
  | .default d => .generated d.emptyMsg
  | .gogo d => .generated d.emptyMsg
  | .dynamic d => .dynamic d.emptyMsg

/-- Interface `ProtoRegistry`: the two methods every registry has. -/
structure ProtoRegistry where
  UnstableProtoMessageType : String → World → (Option ProtoMessageType × Option Error) × World
  UnstableEnumValueMap : String → World → Option (List (String × Int)) × World

/-! ## `proto_package.go` -/

/-- Method `(*defaultProtoRegistry).UnstableProtoMessageType`, with the
golang/protobuf registry `std` it reads. -/
def defaultProtoRegistry.UnstableProtoMessageType (std : GlobalRegistry) (name : String)
    (w : World) : (Option ProtoMessageType × Option Error) × World :=
  match std.MessageType name with
  | none => ((none, some (.messageTypeNotFound name)), w)
  | some goType =>
    let (emptyMsg, w1) :=
      if goType.kind = Kind.Ptr then
        let (goValue, w1) := reflectNewElem goType w
        (assertDescriptorMessage goValue, w1)
      else
        ((none : Option DescriptorMessage), w)
    match emptyMsg with
    | none => ((none, some (.internalError goType)), w1)
    | some emptyMsg =>
      let (fileDesc, msgDesc) := ForMessage emptyMsg
      ((some (.default ⟨fileDesc, msgDesc, emptyMsg⟩), none), w1)

/-- Method `(*defaultProtoRegistry).UnstableEnumValueMap`. -/
def defaultProtoRegistry.UnstableEnumValueMap (std : GlobalRegistry) (name : String) :
    Option (List (String × Int)) :=
  std.EnumValueMap name

/-- The value `&defaultProtoRegistry{}` as a `ProtoRegistry`. -/
def defaultProtoRegistry.toProtoRegistry (std : GlobalRegistry) : ProtoRegistry where
  UnstableProtoMessageType := defaultProtoRegistry.UnstableProtoMessageType std
  UnstableEnumValueMap := fun name w => (defaultProtoRegistry.UnstableEnumValueMap std name, w)

/-- Struct `skyProtoEnumType`, as `Attr` fills it. -/
structure skyProtoEnumType where
  name : String
  valueMap : List (String × Int)

/-- A `starlark.Value` as `Attr` returns it: an enum type, or whatever
`newMessageType` produces (values of type `M`). -/
inductive StarlarkValue (M : Type) where
  | enumType (e : skyProtoEnumType)
  | other (m : M)

/-- Struct `skyProtoPackage`; `registry` is `none` when no registry is bound. -/
structure skyProtoPackage where
  registry : Option ProtoRegistry
  name : String

/-- Function `newProtoPackage`. -/
def newProtoPackage (registry : Option ProtoRegistry) (name : String) : skyProtoPackage :=
  { registry := registry, name := name }

/-- Method `(*skyProtoPackage).Attr`. The function `newMessageType` of the
package is not part of the files embedded here and is an argument. -/
def skyProtoPackage.Attr {M : Type}
    (newMessageType : ProtoRegistry → String → String → World →
      (Option (StarlarkValue M) × Option Error) × World)
    (std : GlobalRegistry) (pkg : skyProtoPackage) (attrName : String) (w : World) :
    (Option (StarlarkValue M) × Option Error) × World :=
  let fullName := pkg.name ++ "." ++ attrName
  let registry :=
    match pkg.registry with
    | none => defaultProtoRegistry.toProtoRegistry std
    | some registry => registry
  match registry.UnstableEnumValueMap fullName w with
  | (some ev, w1) => ((some (.enumType { name := fullName, valueMap := ev }), none), w1)
  | (none, w1) => newMessageType registry "" fullName w1

end Skycfg

/-! ## `gogocompat.go` -/

namespace Gogocompat
open Skycfg

/-- Function `strings.HasPrefix`: `len(s) >= len(prefix) && s[:len(prefix)] == prefix`. -/
def HasPrefix (s pre : String) : Bool :=
  decide (pre.length ≤ s.length) && (s.data.take pre.length == pre.data)

/-- Function `strings.TrimPrefix`: `s` without the leading `prefix`, or `s`
itself when it does not start with `prefix`. -/
def TrimPrefix (s pre : String) : String :=
  if HasPrefix s pre then String.mk (s.data.drop pre.length) else s

/-- Method `(*protoRegistry).UnstableProtoMessageType` of gogocompat, with the
golang/protobuf registry `std` and the gogo/protobuf registry `gogo` it reads. -/
def protoRegistry.UnstableProtoMessageType (std gogo : GlobalRegistry) (name : String)
    (w : World) : (Option ProtoMessageType × Option Error) × World :=
  match std.MessageType name with
  | some _ => ((none, none), w)
  | none =>
    let name := TrimPrefix name "gogo:"
    match gogo.MessageType name with
    | none => ((none, some (.messageTypeNotFound name)), w)
    | some goType =>
      let (emptyMsg, w1) :=
        if goType.kind = Kind.Ptr then
          let (goValue, w1) := reflectNewElem goType w
          (assertDescriptorMessage goValue, w1)
        else
          ((none : Option DescriptorMessage), w)
      match emptyMsg with
      | none => ((none, some (.internalError goType)), w1)
      | some emptyMsg =>
        let (fileDesc, msgDesc) := ForMessage emptyMsg
        ((some (.gogo ⟨fileDesc, msgDesc, emptyMsg⟩), none), w1)

/-- Method `(*protoRegistry).UnstableEnumValueMap` of gogocompat. -/
def protoRegistry.UnstableEnumValueMap (std gogo : GlobalRegistry) (name : String) :
    Option (List (String × Int)) :=
  match std.EnumValueMap name with
  | some ev => some ev
  | none =>
    match gogo.EnumValueMap name with
    | some ev => some ev
    | none => none

/-- Function `ProtoRegistry` of gogocompat: the value `&protoRegistry{}`. -/
def ProtoRegistry (std gogo : GlobalRegistry) : Skycfg.ProtoRegistry where
  UnstableProtoMessageType := protoRegistry.UnstableProtoMessageType std gogo
  UnstableEnumValueMap := fun name w => (protoRegistry.UnstableEnumValueMap std gogo name, w)

end Gogocompat

/-! ## `dynamicpb.go` -/

namespace Dynamicpb
open Skycfg

/-- Method `FullName.Append` of `protoreflect`: the name of a declaration
`name` inside the scope `parent` (a package or a message). -/
def Append (parent name : String) : String :=
  if parent = "" then name else parent ++ "." ++ name

mutual
/-- The descriptors a message declares under the scope `parent` of file `f`:
itself, then its nested messages and its nested enums, each with its full name. -/
def declsOfMessage (f : FileDescriptorProto) (parent : String) :
    DescriptorProto → List (String × Descriptor)
  | .mk name nested enums =>
    (Append parent name,
      Descriptor.message ⟨f, Append parent name, .mk name nested enums⟩) ::
      (declsOfMessages f (Append parent name) nested ++
        enums.map (fun e =>
          (Append (Append parent name) e.name,
            Descriptor.enum f (Append (Append parent name) e.name) e)))
/-- The descriptors a list of messages declares under the scope `parent`. -/
def declsOfMessages (f : FileDescriptorProto) (parent : String) :
    List DescriptorProto → List (String × Descriptor)
  | [] => []
  | m :: ms => declsOfMessage f parent m ++ declsOfMessages f parent ms
end

/-- The descriptors a file declares, each with its full name: its messages
(with what they nest), its enums and its services, in the scope of the
file's package. -/
def declsOfFile (f : FileDescriptorProto) : List (String × Descriptor) :=
  declsOfMessages f f.package f.messageType ++
    f.enumType.map (fun e =>
      (Append f.package e.name, Descriptor.enum f (Append f.package e.name) e)) ++
    f.service.map (fun s =>
      (Append f.package s.name, Descriptor.service f (Append f.package s.name) s))

/-- A `protoregistry.Files`: the descriptors of the registered files by full name. -/
structure Files where
  descsByName : List (String × Descriptor)

/-- Method `(*Files).FindDescriptorByName` of `protoregistry`: the descriptor
registered under `name` and no error, or `nil` and `protoregistry.NotFound`. -/
def Files.FindDescriptorByName (r : Files) (name : String) : Option Descriptor × Option Error :=
  match r.descsByName.lookup name with
  | some d => (some d, none)
  | none => (none, some Error.NotFound)

/-- Function `protodesc.NewFiles`: the index of a descriptor set, or an
error and no index. It fails when a file name occurs twice, when a file
imports a file that is not in the set, or when two declarations of the set
have the same full name. -/
def NewFiles (fd : FileDescriptorSet) : Except Error Files :=
  if ¬ (fd.file.map (fun f => f.name)).Nodup then
    .error (.newFiles "file appears multiple times")
  else if ¬ (fd.file.all (fun f => f.dependency.all (fun dep =>
      (fd.file.map (fun g => g.name)).contains dep))) then
    .error (.newFiles "could not resolve import")
  else if ¬ ((fd.file.flatMap declsOfFile).map Prod.fst).Nodup then
    .error (.newFiles "name conflict")
  else
    .ok ⟨fd.file.flatMap declsOfFile⟩

/-- A `protoreflect.MessageType` of `dynamicpb`, made by `dynamicpb.NewMessageType`. -/
structure MessageType where
  desc : MessageDescriptor

/-- Function `dynamicpb.NewMessageType`. -/
def NewMessageType (d : MessageDescriptor) : MessageType := ⟨d⟩

/-- Method `Descriptor()` of a dynamic message type. -/
def MessageType.Descriptor (t : MessageType) : MessageDescriptor := t.desc

/-- Expression `golang_proto.MessageV1(proto.Message(t.New().Interface()))`:
a newly allocated empty message of the type. -/
def MessageType.New (t : MessageType) (w : World) : DynamicMessage × World :=
  (⟨w.nextAddr, t.desc, []⟩, { w with nextAddr := w.nextAddr + 1 })

/-- Function `protodesc.ToFileDescriptorProto`. -/
def ToFileDescriptorProto (f : FileDescriptorProto) : FileDescriptorProto := f

/-- Function `protodesc.ToDescriptorProto`. -/
def ToDescriptorProto (d : MessageDescriptor) : DescriptorProto := d.proto

/-- Struct `protoRegistry` of dynamicpb. -/
structure protoRegistry where
  files : Files

/-- Method `(*protoRegistry).UnstableProtoMessageType` of dynamicpb. -/
def protoRegistry.UnstableProtoMessageType (r : protoRegistry) (name : String) (w : World) :
    (Option ProtoMessageType × Option Error) × World :=
  let w0 : World := { w with log := w.log ++ ["looking up msg: " ++ name] }
  let (descriptor, err) := r.files.FindDescriptorByName name
  match assertMessageDescriptor descriptor with
  | none => ((none, some (.notAMessage descriptor)), w0)
  | some d =>
    match err with
    | some err => ((none, some err), w0)
    | none =>
      let t := NewMessageType d
      let fileDesc := ToFileDescriptorProto t.Descriptor.parentFile
      let msgDesc := ToDescriptorProto t.Descriptor
      let (emptyMsg, w1) := t.New w0
      ((some (.dynamic ⟨fileDesc, msgDesc, emptyMsg⟩), none), w1)

/-- Method `(*protoRegistry).UnstableEnumValueMap` of dynamicpb. -/
def protoRegistry.UnstableEnumValueMap (_r : protoRegistry) (name : String) (w : World) :
    Option (List (String × Int)) × World :=
  (none, { w with log := w.log ++ ["looking up enum: " ++ name] })

/-- Function `ProtoRegistry` of dynamicpb. -/
def ProtoRegistry (fd : FileDescriptorSet) : Option protoRegistry × Option Error :=
  match NewFiles fd with
  | .error err => (none, some err)
  | .ok files =>
    let registry : protoRegistry := { files := files }
    (some registry, none)

/-- A dynamicpb registry as a value of the interface `ProtoRegistry`. -/
def protoRegistry.toProtoRegistry (r : protoRegistry) : Skycfg.ProtoRegistry where
  UnstableProtoMessageType := r.UnstableProtoMessageType
  UnstableEnumValueMap := r.UnstableEnumValueMap

/-! ## `dynamicpb_test.go` -/

/-- Function `strings.Join(chunks, ".")`. -/
def Join : List String → String
  | [] => ""
  | [a] => a
  | a :: b :: rest => a ++ "." ++ Join (b :: rest)

/-- The name `messageTypeName` builds from a file descriptor and a message of
its top level: the chunks are the package, when it is not empty, and the
simple name of the message. -/
def packageAndName (fileDesc : FileDescriptorProto) (msgDesc : DescriptorProto) : String :=
  let chunks := if fileDesc.GetPackage ≠ "" then [fileDesc.GetPackage] else []
  Join (chunks ++ [msgDesc.GetName])

/-- Function `messageTypeName` on the messages the dynamicpb registry returns:
such a message has no `XXX_MessageName` method and is no `descriptor.Message`,
so the name is `golang_proto.MessageName(msg)`, the full name of its descriptor. -/
def messageTypeName (msg : DynamicMessage) : String := msg.desc.fullName

end Dynamicpb

/-! ## Concrete registries and descriptor sets -/

namespace Fixture
open Skycfg

/-- The world before anything was allocated or logged. -/
def w0 : World := { nextAddr := 0, log := [] }

/-- Message `B` without nested declarations. -/
def msgB : DescriptorProto := .mk "B" [] []

/-- File of package `a` that declares `B`, as golang/protobuf generated it. -/
def stdFile : FileDescriptorProto :=
  { name := "std/b.proto", package := "a", dependency := [], messageType := [msgB],
    enumType := [], service := [] }

/-- File of package `a` that declares `B`, as gogo/protobuf generated it. -/
def gogoFile : FileDescriptorProto :=
  { name := "gogo/b.proto", package := "a", dependency := [], messageType := [msgB],
    enumType := [], service := [] }

/-- The generated type `*std.B`. -/
def stdB : GoType := { name := "*std.B", kind := Kind.Ptr, descriptors := some (stdFile, msgB) }

/-- The generated type `*gogo.B`. -/
def gogoB : GoType := { name := "*gogo.B", kind := Kind.Ptr, descriptors := some (gogoFile, msgB) }

/-- A type registered by hand with value receivers: a struct, not a pointer. -/
def handB : GoType := { name := "hand.B", kind := Kind.Struct, descriptors := some (stdFile, msgB) }

/-- A registry without any name. -/
def emptyRegistry : GlobalRegistry :=
  { MessageType := fun _ => none, EnumValueMap := fun _ => none }

/-- The golang/protobuf registry with message `a.B` and enum `a.E`. -/
def stdRegistry : GlobalRegistry :=
  { MessageType := fun n => if n = "a.B" then some stdB else none
    EnumValueMap := fun n => if n = "a.E" then some [("STD", 7)] else none }

/-- The gogo/protobuf registry with message `a.B` and enum `a.E`. -/
def gogoRegistry : GlobalRegistry :=
  { MessageType := fun n => if n = "a.B" then some gogoB else none
    EnumValueMap := fun n => if n = "a.E" then some [("GOGO", 1)] else none }

/-- A golang/protobuf registry in which a type is registered under the name
`gogo:a.B` and none under `a.B`. -/
def stdPrefixedOnly : GlobalRegistry :=
  { MessageType := fun n => if n = "gogo:a.B" then some stdB else none
    EnumValueMap := fun _ => none }

/-- A golang/protobuf registry in which a type is registered under `a.B` and
under `gogo:a.B`. -/
def stdWithPrefixed : GlobalRegistry :=
  { MessageType := fun n => if n = "a.B" ∨ n = "gogo:a.B" then some stdB else none
    EnumValueMap := fun _ => none }

/-- A golang/protobuf registry with a type registered by hand under `a.B`. -/
def stdHand : GlobalRegistry :=
  { MessageType := fun n => if n = "a.B" then some handB else none
    EnumValueMap := fun _ => none }

/-- Enum `testdata.Person.PhoneType`. -/
def phoneType : EnumDescriptorProto :=
  { name := "PhoneType", value := [("MOBILE", 0), ("HOME", 1), ("WORK", 2)] }

/-- Message `testdata.Person.PhoneNumber`. -/
def phoneNumber : DescriptorProto := .mk "PhoneNumber" [] []

/-- Message `testdata.Person`. -/
def person : DescriptorProto := .mk "Person" [phoneNumber] [phoneType]

/-- Message `testdata.AddressBook`. -/
def addressBook : DescriptorProto := .mk "AddressBook" [] []

/-- Enum `testdata.Color`. -/
def color : EnumDescriptorProto := { name := "Color", value := [("RED", 0)] }

/-- File `testdata/addressbook.proto`. -/
def addressBookFile : FileDescriptorProto :=
  { name := "testdata/addressbook.proto", package := "testdata", dependency := [],
    messageType := [person, addressBook], enumType := [color],
    service := [{ name := "Directory" }] }

/-- The descriptor set with the one file `testdata/addressbook.proto`. -/
def descriptorSet : FileDescriptorSet := { file := [addressBookFile] }

/-- The index of `descriptorSet`. -/
def testFiles : Dynamicpb.Files := ⟨Dynamicpb.declsOfFile addressBookFile⟩

/-- The registry of `descriptorSet`. -/
def testRegistry : Dynamicpb.protoRegistry := { files := testFiles }

/-- A `newMessageType` that resolves the name with the registry and wraps the result. -/
def newMessageType (registry : ProtoRegistry) (_nestedMsgName name : String) (w : World) :
    (Option (StarlarkValue ProtoMessageType) × Option Error) × World :=
  match registry.UnstableProtoMessageType name w with
  | ((some t, none), w1) => ((some (.other t), none), w1)
  | ((_, err), w1) => ((none, err), w1)

end Fixture

/-! ## Theorems: the static registry and the package (`proto_package.go`) -/

namespace Skycfg

/-- The outcome of the default registry on a name that is not registered. -/
theorem default_absent (std : GlobalRegistry) (name : String) (w : World)
    (h : std.MessageType name = none) :
    defaultProtoRegistry.UnstableProtoMessageType std name w =
      ((none, some (Error.messageTypeNotFound name)), w) := by
  simp [defaultProtoRegistry.UnstableProtoMessageType, h]

/-- The outcome of the default registry on a registered type that is not a pointer. -/
theorem default_not_ptr (std : GlobalRegistry) (name : String) (w : World) (t : GoType)
    (h : std.MessageType name = some t) (hk : t.kind ≠ Kind.Ptr) :
    defaultProtoRegistry.UnstableProtoMessageType std name w =
      ((none, some (Error.internalError t)), w) := by
  simp [defaultProtoRegistry.UnstableProtoMessageType, h, hk]

/-- The outcome of the default registry on a registered pointer type whose
values are no `descriptor.Message`. -/
theorem default_no_descriptors (std : GlobalRegistry) (name : String) (w : World) (t : GoType)
    (h : std.MessageType name = some t) (hk : t.kind = Kind.Ptr) (hd : t.descriptors = none) :
    defaultProtoRegistry.UnstableProtoMessageType std name w =
      ((none, some (Error.internalError t)), { w with nextAddr := w.nextAddr + 1 }) := by
  simp [defaultProtoRegistry.UnstableProtoMessageType, h, hk, reflectNewElem,
    assertDescriptorMessage, hd]

/-- The outcome of the default registry on a registered generated type. -/
theorem default_generated (std : GlobalRegistry) (name : String) (w : World) (t : GoType)
    (fd : FileDescriptorProto) (md : DescriptorProto)
    (h : std.MessageType name = some t) (hk : t.kind = Kind.Ptr)
    (hd : t.descriptors = some (fd, md)) :
    defaultProtoRegistry.UnstableProtoMessageType std name w =
      ((some (ProtoMessageType.default
          { fileDesc := fd, msgDesc := md,
            emptyMsg := { val := { addr := w.nextAddr, typ := t, setFields := [] },
                          fileDesc := fd, msgDesc := md } }), none),
        { w with nextAddr := w.nextAddr + 1 }) := by
  simp [defaultProtoRegistry.UnstableProtoMessageType, h, hk, reflectNewElem,
    assertDescriptorMessage, hd, ForMessage]

end Skycfg

namespace Skycfg

/-- C9. Classification of the results of the static registry's
`UnstableProtoMessageType`: the error is a not-found error exactly when the
name is absent from the registry, and it then quotes the requested name; the
error is an `InternalError` exactly when the name is registered with a type
that is not a pointer type whose new zero value is a `descriptor.Message`;
for a registered pointer type whose zero value exposes the descriptors
`fd`, `md` the result is a non-nil type with `fd`, `md` and a zero-valued
value of the registered type at an address that was not allocated before;
and the result is never a nil type with a nil error. -/
theorem default_registry_classification (std : GlobalRegistry) (name : String) (w : World) :
    ((∃ n, (defaultProtoRegistry.UnstableProtoMessageType std name w).1.2 =
          some (Error.messageTypeNotFound n)) ↔ std.MessageType name = none) ∧
    (std.MessageType name = none →
      defaultProtoRegistry.UnstableProtoMessageType std name w =
        ((none, some (Error.messageTypeNotFound name)), w)) ∧
    ((∃ t, (defaultProtoRegistry.UnstableProtoMessageType std name w).1 =
          (none, some (Error.internalError t))) ↔
      ∃ t, std.MessageType name = some t ∧
        ¬ (t.kind = Kind.Ptr ∧ t.descriptors.isSome = true)) ∧
    (∀ t fd md, std.MessageType name = some t → t.kind = Kind.Ptr →
      t.descriptors = some (fd, md) →
      defaultProtoRegistry.UnstableProtoMessageType std name w =
        ((some (ProtoMessageType.default
            { fileDesc := fd, msgDesc := md,
              emptyMsg := { val := { addr := w.nextAddr, typ := t, setFields := [] },
                            fileDesc := fd, msgDesc := md } }), none),
          { w with nextAddr := w.nextAddr + 1 })) ∧
    (defaultProtoRegistry.UnstableProtoMessageType std name w).1 ≠ (none, none) := by
  cases h : std.MessageType name with
  | none =>
    simp [default_absent std name w h]
  | some t =>
    by_cases hk : t.kind = Kind.Ptr
    · cases hd : t.descriptors with
      | none =>
        simp [default_no_descriptors std name w t h hk hd, hk, hd]
        rintro t1 fd md rfl _ h1
        simp [hd] at h1
      | some p =>
        obtain ⟨fd, md⟩ := p
        simp [default_generated std name w t fd md h hk hd, hk, hd]
        rintro t1 fd1 md1 rfl _ h1
        rw [hd] at h1
        simp only [Option.some.injEq, Prod.mk.injEq] at h1
        simp [h1.1, h1.2]
    · simp [default_not_ptr std name w t h hk, hk]
      rintro t1 fd md rfl h1
      exact absurd h1 hk

end Skycfg

namespace Skycfg

/-- The registry a package resolves with: the bound one, or the
static default registry when none is bound. -/
theorem boundRegistry_eq (std : GlobalRegistry) (pkg : skyProtoPackage) :
    (match pkg.registry with
      | none => defaultProtoRegistry.toProtoRegistry std
      | some registry => registry) =
    pkg.registry.getD (defaultProtoRegistry.toProtoRegistry std) := by
  cases pkg.registry <;> rfl

/-- C9 at concrete registries: `a.B` is registered with a generated pointer
type, `a.C` is not registered, and `a.B` registered by hand with a struct
type is an internal error. -/
theorem default_registry_classification_witness :
    defaultProtoRegistry.UnstableProtoMessageType Fixture.stdRegistry "a.B" Fixture.w0 =
      ((some (ProtoMessageType.default
          { fileDesc := Fixture.stdFile, msgDesc := Fixture.msgB,
            emptyMsg := { val := { addr := 0, typ := Fixture.stdB, setFields := [] },
                          fileDesc := Fixture.stdFile, msgDesc := Fixture.msgB } }), none),
        { nextAddr := 1, log := [] }) ∧
    defaultProtoRegistry.UnstableProtoMessageType Fixture.stdRegistry "a.C" Fixture.w0 =
      ((none, some (Error.messageTypeNotFound "a.C")), Fixture.w0) ∧
    (∃ t, (defaultProtoRegistry.UnstableProtoMessageType Fixture.stdHand "a.B" Fixture.w0).1 =
      (none, some (Error.internalError t))) :=
  ⟨(default_registry_classification Fixture.stdRegistry "a.B" Fixture.w0).2.2.2.1
      Fixture.stdB Fixture.stdFile Fixture.msgB rfl rfl rfl,
    (default_registry_classification Fixture.stdRegistry "a.C" Fixture.w0).2.1 rfl,
    (default_registry_classification Fixture.stdHand "a.B" Fixture.w0).2.2.1.mpr
      ⟨Fixture.handB, rfl, by decide⟩⟩

/-- C8. Attribute lookup on a package: with `r` the registry bound to the
package, or the static default registry when none is bound, `Attr` probes
`r.UnstableEnumValueMap` at `pkg.name + "." + attrName`. When the probe is
not nil, `Attr` returns, with no error and whatever `newMessageType` is, the
enum type whose name is that full name and whose value map is the probed map.
When the probe is nil, `Attr` is `newMessageType r "" fullName`, run after the
probe. -/
theorem attr_enum_first {M : Type}
    (newMessageType : ProtoRegistry → String → String → World →
      (Option (StarlarkValue M) × Option Error) × World)
    (std : GlobalRegistry) (pkg : skyProtoPackage) (attrName : String) (w : World) :
    (∀ ev w1,
      (pkg.registry.getD (defaultProtoRegistry.toProtoRegistry std)).UnstableEnumValueMap
          (pkg.name ++ "." ++ attrName) w = (some ev, w1) →
      skyProtoPackage.Attr newMessageType std pkg attrName w =
        ((some (StarlarkValue.enumType
            { name := pkg.name ++ "." ++ attrName, valueMap := ev }), none), w1)) ∧
    (∀ w1,
      (pkg.registry.getD (defaultProtoRegistry.toProtoRegistry std)).UnstableEnumValueMap
          (pkg.name ++ "." ++ attrName) w = (none, w1) →
      skyProtoPackage.Attr newMessageType std pkg attrName w =
        newMessageType (pkg.registry.getD (defaultProtoRegistry.toProtoRegistry std)) ""
          (pkg.name ++ "." ++ attrName) w1) := by
  constructor
  · intro ev w1 h
    simp only [skyProtoPackage.Attr, boundRegistry_eq, h]
  · intro w1 h
    simp only [skyProtoPackage.Attr, boundRegistry_eq, h]

/-- C8 at concrete packages without a bound registry: `a.E` is an enum of the
static registry and resolves to an enum type with any `newMessageType`;
`a.B` is no enum and goes on to `newMessageType`. -/
theorem attr_enum_first_witness :
    (∀ nmt : ProtoRegistry → String → String → World →
        (Option (StarlarkValue ProtoMessageType) × Option Error) × World,
      skyProtoPackage.Attr nmt Fixture.stdRegistry (newProtoPackage none "a") "E" Fixture.w0 =
        ((some (StarlarkValue.enumType { name := "a.E", valueMap := [("STD", 7)] }), none),
          Fixture.w0)) ∧
    skyProtoPackage.Attr Fixture.newMessageType Fixture.stdRegistry (newProtoPackage none "a")
        "B" Fixture.w0 =
      Fixture.newMessageType (defaultProtoRegistry.toProtoRegistry Fixture.stdRegistry) ""
        "a.B" Fixture.w0 :=
  ⟨fun nmt =>
    (attr_enum_first nmt Fixture.stdRegistry (newProtoPackage none "a") "E" Fixture.w0).1
      [("STD", 7)] Fixture.w0 rfl,
   (attr_enum_first Fixture.newMessageType Fixture.stdRegistry (newProtoPackage none "a") "B"
      Fixture.w0).2 Fixture.w0 rfl⟩

end Skycfg

/-! ## Theorems: the registry that falls back to GoGo (`gogocompat.go`) -/

namespace Gogocompat
open Skycfg

/-- A string that begins with `pre` has the prefix `pre`. -/
theorem HasPrefix_append (pre X : String) : HasPrefix (pre ++ X) pre = true := by
  have hl : ∀ s : String, s.length = s.data.length := fun _ => rfl
  unfold HasPrefix
  rw [hl, hl, String.data_append]
  simp

/-- Trimming `pre` from `pre ++ X` leaves `X`. -/
theorem TrimPrefix_append (pre X : String) : TrimPrefix (pre ++ X) pre = X := by
  have hl : ∀ s : String, s.length = s.data.length := fun _ => rfl
  unfold TrimPrefix
  rw [HasPrefix_append, if_pos rfl, hl, String.data_append, List.drop_left]

/-- Trimming leaves a string without the prefix as it is. -/
theorem TrimPrefix_of_not_HasPrefix (s pre : String) (h : HasPrefix s pre = false) :
    TrimPrefix s pre = s := by
  simp [TrimPrefix, h]

/-- A name the static registry defines passes through: nil type, nil error,
nothing allocated, whatever the GoGo registry holds. -/
theorem gogo_static_hit (std gogo : GlobalRegistry) (name : String) (t : GoType) (w : World)
    (h : std.MessageType name = some t) :
    protoRegistry.UnstableProtoMessageType std gogo name w = ((none, none), w) := by
  simp [protoRegistry.UnstableProtoMessageType, h]

/-- A name the static registry does not define and whose trimmed form the
GoGo registry does not define is not found, and the error quotes the trimmed name. -/
theorem gogo_legacy_absent (std gogo : GlobalRegistry) (name : String) (w : World)
    (h : std.MessageType name = none)
    (hg : gogo.MessageType (TrimPrefix name "gogo:") = none) :
    protoRegistry.UnstableProtoMessageType std gogo name w =
      ((none, some (Error.messageTypeNotFound (TrimPrefix name "gogo:"))), w) := by
  simp [protoRegistry.UnstableProtoMessageType, h, hg]

/-- A name the static registry does not define and whose trimmed form the
GoGo registry defines with a generated pointer type resolves to the GoGo type. -/
theorem gogo_legacy_generated (std gogo : GlobalRegistry) (name : String) (w : World)
    (t : GoType) (fd : FileDescriptorProto) (md : DescriptorProto)
    (h : std.MessageType name = none)
    (hg : gogo.MessageType (TrimPrefix name "gogo:") = some t)
    (hk : t.kind = Kind.Ptr) (hd : t.descriptors = some (fd, md)) :
    protoRegistry.UnstableProtoMessageType std gogo name w =
      ((some (ProtoMessageType.gogo
          { fileDesc := fd, msgDesc := md,
            emptyMsg := { val := { addr := w.nextAddr, typ := t, setFields := [] },
                          fileDesc := fd, msgDesc := md } }), none),
        { w with nextAddr := w.nextAddr + 1 }) := by
  simp [protoRegistry.UnstableProtoMessageType, h, hg, hk, reflectNewElem,
    assertDescriptorMessage, hd, ForMessage]

end Gogocompat

namespace Gogocompat
open Skycfg

/-- C1, as stated, fails: `a.B` is registered in the static registry (type
`*std.B`) and in the GoGo registry (type `*gogo.B`), and the unprefixed
resolution of `a.B` returns a nil type with a nil error; so it returns no
non-nil type with the static descriptors. -/
theorem gogo_unprefixed_both_counterexample :
    Fixture.stdRegistry.MessageType "a.B" = some Fixture.stdB ∧
    Fixture.gogoRegistry.MessageType "a.B" = some Fixture.gogoB ∧
    protoRegistry.UnstableProtoMessageType Fixture.stdRegistry Fixture.gogoRegistry "a.B"
        Fixture.w0 = ((none, none), Fixture.w0) ∧
    ¬ ∃ t : ProtoMessageType,
        (protoRegistry.UnstableProtoMessageType Fixture.stdRegistry Fixture.gogoRegistry "a.B"
          Fixture.w0).1 = (some t, none) ∧
        t.Descriptors = (Fixture.stdFile, Fixture.msgB) := by
  refine ⟨rfl, rfl, rfl, ?_⟩
  rintro ⟨t, h, -⟩
  have h1 : protoRegistry.UnstableProtoMessageType Fixture.stdRegistry Fixture.gogoRegistry
      "a.B" Fixture.w0 = ((none, none), Fixture.w0) := rfl
  rw [h1] at h
  simp at h

/-- C1, amended. For every name `X` registered in both the static registry and
the GoGo registry, the unprefixed resolution of `X` through gogocompat's
`UnstableProtoMessageType` passes through: it returns a nil type and a nil
error, and allocates and logs nothing. -/
theorem gogo_unprefixed_both_passes_through (std gogo : GlobalRegistry) (X : String)
    (t g : GoType) (w : World)
    (hs : std.MessageType X = some t) (_hg : gogo.MessageType X = some g) :
    protoRegistry.UnstableProtoMessageType std gogo X w = ((none, none), w) :=
  gogo_static_hit std gogo X t w hs

/-- C1, amended, at `a.B`, registered in both registries. -/
theorem gogo_unprefixed_both_passes_through_witness :
    protoRegistry.UnstableProtoMessageType Fixture.stdRegistry Fixture.gogoRegistry "a.B"
        Fixture.w0 = ((none, none), Fixture.w0) :=
  gogo_unprefixed_both_passes_through Fixture.stdRegistry Fixture.gogoRegistry "a.B"
    Fixture.stdB Fixture.gogoB Fixture.w0 rfl rfl

/-- C2. For every name `X` the GoGo registry defines with a pointer type
whose new zero value is a `descriptor.Message` with descriptors `fd`, `md`,
and provided no name of the static registry begins with `gogo:`, resolving
`"gogo:" + X` strips the prefix and returns, with no error, what the GoGo
registry defines for `X`: `fd`, `md` and a zero-valued instance of the GoGo
type at an address that was not allocated before. No assumption is made on whether
the static registry defines `X`. -/
theorem gogo_prefixed_resolves_legacy (std gogo : GlobalRegistry) (X : String) (t : GoType)
    (fd : FileDescriptorProto) (md : DescriptorProto) (w : World)
    (hg : gogo.MessageType X = some t) (hk : t.kind = Kind.Ptr)
    (hd : t.descriptors = some (fd, md))
    (hstd : ∀ n, HasPrefix n "gogo:" = true → std.MessageType n = none) :
    TrimPrefix ("gogo:" ++ X) "gogo:" = X ∧
    protoRegistry.UnstableProtoMessageType std gogo ("gogo:" ++ X) w =
      ((some (ProtoMessageType.gogo
          { fileDesc := fd, msgDesc := md,
            emptyMsg := { val := { addr := w.nextAddr, typ := t, setFields := [] },
                          fileDesc := fd, msgDesc := md } }), none),
        { w with nextAddr := w.nextAddr + 1 }) := by
  refine ⟨TrimPrefix_append "gogo:" X, ?_⟩
  apply gogo_legacy_generated std gogo ("gogo:" ++ X) w t fd md
    (hstd _ (HasPrefix_append "gogo:" X)) _ hk hd
  rw [TrimPrefix_append]
  exact hg

/-- C2 at `a.B`, which both registries define: `gogo:a.B` resolves to the
GoGo type `*gogo.B` with the descriptors of the GoGo file. -/
theorem gogo_prefixed_resolves_legacy_witness :
    Fixture.stdRegistry.MessageType "a.B" = some Fixture.stdB ∧
    protoRegistry.UnstableProtoMessageType Fixture.stdRegistry Fixture.gogoRegistry
        ("gogo:" ++ "a.B") Fixture.w0 =
      ((some (ProtoMessageType.gogo
          { fileDesc := Fixture.gogoFile, msgDesc := Fixture.msgB,
            emptyMsg := { val := { addr := 0, typ := Fixture.gogoB, setFields := [] },
                          fileDesc := Fixture.gogoFile, msgDesc := Fixture.msgB } }), none),
        { nextAddr := 1, log := [] }) :=
  ⟨rfl,
   (gogo_prefixed_resolves_legacy Fixture.stdRegistry Fixture.gogoRegistry "a.B" Fixture.gogoB
      Fixture.gogoFile Fixture.msgB Fixture.w0 rfl rfl rfl
      (by
        intro n hn
        have hne : n ≠ "a.B" := by
          rintro rfl
          exact absurd hn (by decide)
        simp [Fixture.stdRegistry, hne])).2⟩

end Gogocompat

namespace Gogocompat
open Skycfg

/-- C5, the code at the failing input: with a static registry that holds the
name `gogo:a.B` and not `a.B`, the unprefixed name `a.B` is absent from the
static registry and the GoGo registry defines it with a generated pointer
type. The resolution of `a.B` returns the GoGo definition with no error. The
resolution of `gogo:a.B` looks the prefixed name up in the static registry
before the prefix is stripped and returns a nil type with a nil error, which
is not the same result, although the prefix is documented to skip the lookup
in the static registry. -/
theorem gogo_prefixed_static_hit_differs_from_fallback :
    HasPrefix "a.B" "gogo:" = false ∧
    Fixture.stdPrefixedOnly.MessageType "a.B" = none ∧
    Fixture.gogoRegistry.MessageType "a.B" = some Fixture.gogoB ∧
    Fixture.gogoB.kind = Kind.Ptr ∧
    Fixture.gogoB.descriptors = some (Fixture.gogoFile, Fixture.msgB) ∧
    protoRegistry.UnstableProtoMessageType Fixture.stdPrefixedOnly Fixture.gogoRegistry "a.B"
        Fixture.w0 =
      ((some (ProtoMessageType.gogo
          { fileDesc := Fixture.gogoFile, msgDesc := Fixture.msgB,
            emptyMsg := { val := { addr := 0, typ := Fixture.gogoB, setFields := [] },
                          fileDesc := Fixture.gogoFile, msgDesc := Fixture.msgB } }), none),
        { nextAddr := 1, log := [] }) ∧
    protoRegistry.UnstableProtoMessageType Fixture.stdPrefixedOnly Fixture.gogoRegistry
        ("gogo:" ++ "a.B") Fixture.w0 = ((none, none), Fixture.w0) ∧
    protoRegistry.UnstableProtoMessageType Fixture.stdPrefixedOnly Fixture.gogoRegistry
        ("gogo:" ++ "a.B") Fixture.w0 ≠
      protoRegistry.UnstableProtoMessageType Fixture.stdPrefixedOnly Fixture.gogoRegistry "a.B"
        Fixture.w0 := by
  refine ⟨by decide, rfl, rfl, rfl, rfl, rfl, rfl, ?_⟩
  intro h
  have h1 : (protoRegistry.UnstableProtoMessageType Fixture.stdPrefixedOnly
      Fixture.gogoRegistry ("gogo:" ++ "a.B") Fixture.w0).2.nextAddr = 0 := rfl
  rw [h] at h1
  exact absurd h1 (by decide)

/-- What holds of the fallback on every input. For every unprefixed name `X`
that is absent from the static registry and that the GoGo registry defines
with a pointer type whose new zero value is a `descriptor.Message`,
`UnstableProtoMessageType(X)` returns the GoGo definition of `X` with no
error. When the static registry does not hold the name `"gogo:" + X`, the
resolution of `"gogo:" + X` is the same result; when it does, that
resolution is the pass-through. And whenever the static registry defines a
name `Y`, the result for `Y` is the pass-through whatever the GoGo registry
holds: the GoGo registry is not consulted. -/
theorem gogo_fallback (std gogo : GlobalRegistry) (X : String) (t : GoType)
    (fd : FileDescriptorProto) (md : DescriptorProto) (w : World)
    (hX : HasPrefix X "gogo:" = false)
    (hs : std.MessageType X = none)
    (hg : gogo.MessageType X = some t) (hk : t.kind = Kind.Ptr)
    (hd : t.descriptors = some (fd, md)) :
    protoRegistry.UnstableProtoMessageType std gogo X w =
      ((some (ProtoMessageType.gogo
          { fileDesc := fd, msgDesc := md,
            emptyMsg := { val := { addr := w.nextAddr, typ := t, setFields := [] },
                          fileDesc := fd, msgDesc := md } }), none),
        { w with nextAddr := w.nextAddr + 1 }) ∧
    (std.MessageType ("gogo:" ++ X) = none →
      protoRegistry.UnstableProtoMessageType std gogo ("gogo:" ++ X) w =
        protoRegistry.UnstableProtoMessageType std gogo X w) ∧
    (∀ s, std.MessageType ("gogo:" ++ X) = some s →
      protoRegistry.UnstableProtoMessageType std gogo ("gogo:" ++ X) w = ((none, none), w)) ∧
    (∀ (Y : String) (s : GoType) (gogo1 gogo2 : GlobalRegistry) (w1 : World),
      std.MessageType Y = some s →
      protoRegistry.UnstableProtoMessageType std gogo1 Y w1 = ((none, none), w1) ∧
      protoRegistry.UnstableProtoMessageType std gogo1 Y w1 =
        protoRegistry.UnstableProtoMessageType std gogo2 Y w1) := by
  have h1 := gogo_legacy_generated std gogo X w t fd md hs
    (by rw [TrimPrefix_of_not_HasPrefix X "gogo:" hX]; exact hg) hk hd
  have h2 := fun hp => gogo_legacy_generated std gogo ("gogo:" ++ X) w t fd md hp
    (by rw [TrimPrefix_append]; exact hg) hk hd
  refine ⟨h1, fun hp => (h2 hp).trans h1.symm,
    fun s hp => gogo_static_hit std gogo ("gogo:" ++ X) s w hp, ?_⟩
  intro Y s gogo1 gogo2 w1 hY
  rw [gogo_static_hit std gogo1 Y s w1 hY, gogo_static_hit std gogo2 Y s w1 hY]
  exact ⟨rfl, rfl⟩

/-- The fallback at `a.B`, which only the GoGo registry defines. -/
theorem gogo_fallback_witness :
    protoRegistry.UnstableProtoMessageType Fixture.emptyRegistry Fixture.gogoRegistry "a.B"
        Fixture.w0 =
      ((some (ProtoMessageType.gogo
          { fileDesc := Fixture.gogoFile, msgDesc := Fixture.msgB,
            emptyMsg := { val := { addr := 0, typ := Fixture.gogoB, setFields := [] },
                          fileDesc := Fixture.gogoFile, msgDesc := Fixture.msgB } }), none),
        { nextAddr := 1, log := [] }) ∧
    protoRegistry.UnstableProtoMessageType Fixture.emptyRegistry Fixture.gogoRegistry
        ("gogo:" ++ "a.B") Fixture.w0 =
      protoRegistry.UnstableProtoMessageType Fixture.emptyRegistry Fixture.gogoRegistry "a.B"
        Fixture.w0 :=
  have h := gogo_fallback Fixture.emptyRegistry Fixture.gogoRegistry "a.B" Fixture.gogoB
    Fixture.gogoFile Fixture.msgB Fixture.w0 (by decide) rfl rfl rfl rfl
  ⟨h.1, h.2.1 rfl⟩

/-- C6, the code at the failing input: with a static registry that holds
`a.B` and `gogo:a.B` and a GoGo registry that holds nothing, `a.B` is present
only in the static registry. Resolving `gogo:a.B` looks the prefixed name up
in the static registry before the prefix is stripped, and returns a nil type
with a nil error: no not-found error, although the prefix is documented to
skip the lookup in the static registry. -/
theorem gogo_prefixed_static_hit_is_no_error :
    Fixture.stdWithPrefixed.MessageType "a.B" = some Fixture.stdB ∧
    Fixture.emptyRegistry.MessageType "a.B" = none ∧
    protoRegistry.UnstableProtoMessageType Fixture.stdWithPrefixed Fixture.emptyRegistry
        ("gogo:" ++ "a.B") Fixture.w0 = ((none, none), Fixture.w0) ∧
    ¬ ∃ n, (protoRegistry.UnstableProtoMessageType Fixture.stdWithPrefixed
        Fixture.emptyRegistry ("gogo:" ++ "a.B") Fixture.w0).1.2 =
          some (Error.messageTypeNotFound n) := by
  refine ⟨rfl, rfl, rfl, ?_⟩
  rintro ⟨n, h⟩
  have h1 : (protoRegistry.UnstableProtoMessageType Fixture.stdWithPrefixed
      Fixture.emptyRegistry ("gogo:" ++ "a.B") Fixture.w0).1.2 = none := rfl
  rw [h1] at h
  exact absurd h (by simp)

/-- Where the prefixed form does fail as it should: for every name `X` that
is present only in the static registry (the GoGo registry does not define
it), when the static registry does not hold the name `"gogo:" + X`,
resolving `"gogo:" + X` fails with the not-found error that quotes `X` and
returns no message type. -/
theorem gogo_prefixed_static_only_not_found (std gogo : GlobalRegistry) (X : String)
    (t : GoType) (w : World)
    (_hs : std.MessageType X = some t) (hg : gogo.MessageType X = none)
    (hp : std.MessageType ("gogo:" ++ X) = none) :
    protoRegistry.UnstableProtoMessageType std gogo ("gogo:" ++ X) w =
      ((none, some (Error.messageTypeNotFound X)), w) := by
  have h := gogo_legacy_absent std gogo ("gogo:" ++ X) w hp
    (by rw [TrimPrefix_append]; exact hg)
  rw [TrimPrefix_append] at h
  exact h

/-- The not-found error at `gogo:a.B`, with `a.B` only in the static registry. -/
theorem gogo_prefixed_static_only_not_found_witness :
    protoRegistry.UnstableProtoMessageType Fixture.stdRegistry Fixture.emptyRegistry
        ("gogo:" ++ "a.B") Fixture.w0 =
      ((none, some (Error.messageTypeNotFound "a.B")), Fixture.w0) :=
  gogo_prefixed_static_only_not_found Fixture.stdRegistry Fixture.emptyRegistry "a.B"
    Fixture.stdB Fixture.w0 rfl rfl rfl

/-- The enum lookup of gogocompat does not strip the prefix: when neither
registry holds the prefixed name itself, the lookup of `"gogo:" + E` is nil. -/
theorem gogo_enum_prefixed_nil (std gogo : GlobalRegistry) (E : String)
    (hs : std.EnumValueMap ("gogo:" ++ E) = none)
    (hg : gogo.EnumValueMap ("gogo:" ++ E) = none) :
    protoRegistry.UnstableEnumValueMap std gogo ("gogo:" ++ E) = none := by
  simp [protoRegistry.UnstableEnumValueMap, hs, hg]

/-- C7, the code at the failing input: the GoGo registry defines the enum
`a.E` with the map `GOGO = 1`, and `UnstableEnumValueMap("gogo:a.E")` is nil,
with an empty static registry and with a static registry that defines `a.E`;
the message lookup beside it does strip the prefix. -/
theorem gogo_enum_prefix_not_stripped :
    Fixture.gogoRegistry.EnumValueMap "a.E" = some [("GOGO", 1)] ∧
    protoRegistry.UnstableEnumValueMap Fixture.emptyRegistry Fixture.gogoRegistry
        ("gogo:" ++ "a.E") = none ∧
    protoRegistry.UnstableEnumValueMap Fixture.stdRegistry Fixture.gogoRegistry
        ("gogo:" ++ "a.E") = none ∧
    (protoRegistry.UnstableProtoMessageType Fixture.emptyRegistry Fixture.gogoRegistry
        ("gogo:" ++ "a.B") Fixture.w0).1.2 = none :=
  ⟨rfl, rfl, rfl, rfl⟩

end Gogocompat

/-! ## Theorems: the registry of a descriptor set (`dynamicpb.go`) -/

namespace Dynamicpb
open Skycfg

/-- In a list of entries with pairwise distinct keys, looking a key up gives
the value of any entry with that key. -/
theorem lookup_of_mem_of_nodup {β : Type} :
    ∀ (l : List (String × β)) (k : String) (v : β),
      (l.map Prod.fst).Nodup → (k, v) ∈ l → l.lookup k = some v := by
  intro l
  induction l with
  | nil => intro k v _ h; simp at h
  | cons hd tl ih =>
    intro k v hn hmem
    obtain ⟨k1, v1⟩ := hd
    simp only [List.map_cons, List.nodup_cons] at hn
    rcases List.mem_cons.mp hmem with h | h
    · simp only [Prod.mk.injEq] at h
      simp [List.lookup, h.1, h.2]
    · have hk : k ∈ tl.map Prod.fst := List.mem_map.mpr ⟨(k, v), h, rfl⟩
      have hne : k ≠ k1 := by
        rintro rfl
        exact hn.1 hk
      have hb : (k == k1) = false := by simpa using hne
      simp only [List.lookup, hb]
      exact ih k v hn.2 h

/-- A message of a list is declared, under its own name in the scope, by the list. -/
theorem mem_declsOfMessages (f : FileDescriptorProto) (parent : String) (m : DescriptorProto) :
    ∀ ms : List DescriptorProto, m ∈ ms →
      (Append parent m.GetName,
        Descriptor.message ⟨f, Append parent m.GetName, m⟩) ∈ declsOfMessages f parent ms := by
  intro ms
  induction ms with
  | nil => intro h; simp at h
  | cons hd tl ih =>
    intro h
    rw [declsOfMessages]
    rcases List.mem_cons.mp h with h | h
    · subst h
      apply List.mem_append_left
      cases m with
      | mk name nested enums =>
        rw [declsOfMessage]
        exact List.mem_cons_self _ _
    · exact List.mem_append_right _ (ih h)

/-- A top-level message of a file of the set is declared by the set. -/
theorem mem_decls_of_top_level (fd : FileDescriptorSet) (f : FileDescriptorProto)
    (m : DescriptorProto) (hf : f ∈ fd.file) (hm : m ∈ f.messageType) :
    (Append f.package m.GetName,
      Descriptor.message ⟨f, Append f.package m.GetName, m⟩) ∈ fd.file.flatMap declsOfFile := by
  rw [List.mem_flatMap]
  refine ⟨f, hf, ?_⟩
  unfold declsOfFile
  exact List.mem_append_left _ (List.mem_append_left _ (mem_declsOfMessages f f.package m _ hm))

/-- A registry that `ProtoRegistry` built indexes the declarations of the
set, and their full names are pairwise distinct. -/
theorem ProtoRegistry_ok (fd : FileDescriptorSet) (r : protoRegistry)
    (h : ProtoRegistry fd = (some r, none)) :
    r.files.descsByName = fd.file.flatMap declsOfFile ∧
      ((fd.file.flatMap declsOfFile).map Prod.fst).Nodup := by
  unfold ProtoRegistry NewFiles at h
  split_ifs at h with h1 h2 h3
  · simp only [Prod.mk.injEq, Option.some.injEq, and_true] at h
    subst h
    exact ⟨rfl, h3⟩
  all_goals simp at h

/-- The name the test builds from the package and the simple name of a
top-level message is its full name. -/
theorem packageAndName_eq_Append (f : FileDescriptorProto) (m : DescriptorProto) :
    packageAndName f m = Append f.package m.GetName := by
  unfold packageAndName Append FileDescriptorProto.GetPackage
  by_cases hp : f.package = ""
  · simp [hp, Join]
  · simp [hp, Join]

/-- The resolution of a name the index maps to a message descriptor. -/
theorem dynamic_message (r : protoRegistry) (name : String) (w : World) (d : MessageDescriptor)
    (h : r.files.descsByName.lookup name = some (Descriptor.message d)) :
    r.UnstableProtoMessageType name w =
      ((some (ProtoMessageType.dynamic
          { fileDesc := d.parentFile, msgDesc := d.proto,
            emptyMsg := { addr := w.nextAddr, desc := d, setFields := [] } }), none),
        { nextAddr := w.nextAddr + 1, log := w.log ++ ["looking up msg: " ++ name] }) := by
  simp [protoRegistry.UnstableProtoMessageType, Files.FindDescriptorByName, h,
    assertMessageDescriptor, NewMessageType, MessageType.New, MessageType.Descriptor,
    ToFileDescriptorProto, ToDescriptorProto]

/-- The resolution of a name that is absent from the index: the error is
the not-a-message error on a nil descriptor. -/
theorem dynamic_absent (r : protoRegistry) (name : String) (w : World)
    (h : r.files.descsByName.lookup name = none) :
    r.UnstableProtoMessageType name w =
      ((none, some (Error.notAMessage none)),
        { w with log := w.log ++ ["looking up msg: " ++ name] }) := by
  simp [protoRegistry.UnstableProtoMessageType, Files.FindDescriptorByName, h,
    assertMessageDescriptor]

/-- The resolution of a name the index maps to a descriptor that is no
message: the error is the not-a-message error on that descriptor. -/
theorem dynamic_wrong_kind (r : protoRegistry) (name : String) (w : World) (d : Descriptor)
    (h : r.files.descsByName.lookup name = some d)
    (hd : ∀ md, d ≠ Descriptor.message md) :
    r.UnstableProtoMessageType name w =
      ((none, some (Error.notAMessage (some d))),
        { w with log := w.log ++ ["looking up msg: " ++ name] }) := by
  cases d with
  | message md => exact absurd rfl (hd md)
  | enum f n e =>
    simp [protoRegistry.UnstableProtoMessageType, Files.FindDescriptorByName, h,
      assertMessageDescriptor]
  | service f n s =>
    simp [protoRegistry.UnstableProtoMessageType, Files.FindDescriptorByName, h,
      assertMessageDescriptor]

/-- The error of the index lookup never comes back from the resolution:
the check of `err` is behind the check of the type assertion. -/
theorem dynamic_never_NotFound (r : protoRegistry) (name : String) (w : World) :
    (r.UnstableProtoMessageType name w).1.2 ≠ some Error.NotFound := by
  cases h : r.files.descsByName.lookup name with
  | none => simp [dynamic_absent r name w h]
  | some d =>
    cases d with
    | message md => simp [dynamic_message r name w md h]
    | enum f n e =>
      simp [dynamic_wrong_kind r name w _ h (by intro md; simp)]
    | service f n s =>
      simp [dynamic_wrong_kind r name w _ h (by intro md; simp)]

end Dynamicpb

namespace Dynamicpb
open Skycfg

/-- C3, the code at the failing input: `testdata.Missing` is absent from the
index of the test descriptor set, whose lookup answers `nil` and
`protoregistry.NotFound`; the resolution does not fail with that error but
with the not-a-message error on a nil descriptor, the same kind of error as
for the enum `testdata.Color` and the service `testdata.Directory`. No
message type is returned in any of the three cases. -/
theorem dynamic_absent_is_not_a_message :
    Fixture.testFiles.FindDescriptorByName "testdata.Missing" = (none, some Error.NotFound) ∧
    (Fixture.testRegistry.UnstableProtoMessageType "testdata.Missing" Fixture.w0).1 =
      (none, some (Error.notAMessage none)) ∧
    (Fixture.testRegistry.UnstableProtoMessageType "testdata.Missing" Fixture.w0).1.2 ≠
      some Error.NotFound ∧
    (Fixture.testRegistry.UnstableProtoMessageType "testdata.Color" Fixture.w0).1 =
      (none, some (Error.notAMessage
        (some (Descriptor.enum Fixture.addressBookFile "testdata.Color" Fixture.color)))) ∧
    (Fixture.testRegistry.UnstableProtoMessageType "testdata.Directory" Fixture.w0).1 =
      (none, some (Error.notAMessage
        (some (Descriptor.service Fixture.addressBookFile "testdata.Directory"
          { name := "Directory" })))) :=
  ⟨rfl, rfl, dynamic_never_NotFound _ _ _, rfl, rfl⟩

/-- C4. Round trip through the dynamicpb registry: for every registry that
`ProtoRegistry` built from a descriptor set, and every top-level message `m`
of a file `f` of the set, the resolution of the full name `N` of `m` (the
package of `f` and the simple name of `m`) succeeds; the resolved type has
the descriptors `f` and `m`, the package of its file descriptor joined by
`.` with the simple name of its message descriptor is `N`, and the computed
message name of its `Empty()` is `N`. -/
theorem dynamic_round_trip (fd : FileDescriptorSet) (r : protoRegistry)
    (f : FileDescriptorProto) (m : DescriptorProto) (w : World)
    (hr : ProtoRegistry fd = (some r, none)) (hf : f ∈ fd.file) (hm : m ∈ f.messageType) :
    ∃ (mt : ProtoMessageType) (e : DynamicMessage) (w1 : World),
      r.UnstableProtoMessageType (Append f.package m.GetName) w = ((some mt, none), w1) ∧
      mt.Descriptors = (f, m) ∧
      packageAndName mt.Descriptors.1 mt.Descriptors.2 = Append f.package m.GetName ∧
      mt.Empty = ProtoMessage.dynamic e ∧
      messageTypeName e = Append f.package m.GetName ∧
      e.addr = w.nextAddr ∧ e.setFields = [] := by
  obtain ⟨hidx, hnodup⟩ := ProtoRegistry_ok fd r hr
  have hl : r.files.descsByName.lookup (Append f.package m.GetName) =
      some (Descriptor.message ⟨f, Append f.package m.GetName, m⟩) := by
    rw [hidx]
    exact lookup_of_mem_of_nodup _ _ _ hnodup (mem_decls_of_top_level fd f m hf hm)
  refine ⟨_, _, _, dynamic_message r _ w _ hl, rfl, ?_, rfl, rfl, rfl, rfl⟩
  exact packageAndName_eq_Append f m

/-- C4 at the test descriptor set: `testdata.AddressBook` resolves, and both
computed names are `testdata.AddressBook`. -/
theorem dynamic_round_trip_witness :
    ∃ (mt : ProtoMessageType) (e : DynamicMessage) (w1 : World),
      Fixture.testRegistry.UnstableProtoMessageType "testdata.AddressBook" Fixture.w0 =
        ((some mt, none), w1) ∧
      mt.Descriptors = (Fixture.addressBookFile, Fixture.addressBook) ∧
      packageAndName mt.Descriptors.1 mt.Descriptors.2 = "testdata.AddressBook" ∧
      mt.Empty = ProtoMessage.dynamic e ∧
      messageTypeName e = "testdata.AddressBook" ∧
      e.addr = 0 ∧ e.setFields = [] :=
  dynamic_round_trip Fixture.descriptorSet Fixture.testRegistry Fixture.addressBookFile
    Fixture.addressBook Fixture.w0 rfl (List.Mem.head _) (List.Mem.tail _ (List.Mem.head _))

/-- The round trip is about top-level messages: the nested message
`testdata.Person.PhoneNumber` resolves, and the package joined with its
simple name is `testdata.PhoneNumber`. -/
theorem dynamic_nested_name :
    ∃ (mt : ProtoMessageType) (w1 : World),
      Fixture.testRegistry.UnstableProtoMessageType "testdata.Person.PhoneNumber"
        Fixture.w0 = ((some mt, none), w1) ∧
      packageAndName mt.Descriptors.1 mt.Descriptors.2 = "testdata.PhoneNumber" :=
  ⟨_, _, rfl, rfl⟩

/-- C10. The enum lookup of the dynamicpb registry is nil for every registry
and every name, through the method and through the interface; all it does is
write a log line. -/
theorem dynamic_enum_lookup_nil (r : protoRegistry) (name : String) (w : World) :
    (r.UnstableEnumValueMap name w).1 = none ∧
    (r.toProtoRegistry.UnstableEnumValueMap name w).1 = none ∧
    (r.UnstableEnumValueMap name w).2 =
      { w with log := w.log ++ ["looking up enum: " ++ name] } :=
  ⟨rfl, rfl, rfl⟩

/-- C10 at a name that is a valid enum of the descriptor set: the index of
the test registry holds the enum `testdata.Color`, and its enum lookup is nil. -/
theorem dynamic_enum_lookup_nil_witness :
    Dynamicpb.ProtoRegistry Fixture.descriptorSet = (some Fixture.testRegistry, none) ∧
    Fixture.testFiles.FindDescriptorByName "testdata.Color" =
      (some (Descriptor.enum Fixture.addressBookFile "testdata.Color" Fixture.color), none) ∧
    (Fixture.testRegistry.UnstableEnumValueMap "testdata.Color" Fixture.w0).1 = none :=
  ⟨rfl, rfl, (dynamic_enum_lookup_nil Fixture.testRegistry "testdata.Color" Fixture.w0).1⟩

end Dynamicpb
